import Mathlib

/-!
Shallow embedding of the provider manager of `decky-qqmusic`
(`src/backend/providers/manager.py` together with the capability enum and
provider contract of `src/backend/providers/base.py` and the response shapes
of `src/backend/types.py`).

Modelling conventions:
* Python dictionaries with `TypedDict(total=False)` shapes become structures;
  a field the manager reads with `.get(k)`/`.get(k, d)` whose absence is
  observable becomes `Option _` (absence = `none`), while fields the manager
  only tests for truthiness become their plain payload type (missing key and
  falsy value are indistinguishable to the manager).  Pass-through fields the
  manager never reads nor writes (`quality`, `qrc`, ...) are omitted.
* A provider's asynchronous backend calls (`search_songs`, `get_song_url`,
  `get_song_lyric`) are modelled as pure functions stored in the provider
  record; `ensure_provider_logged_in` (which wraps `get_login_status` and maps
  an exception to `False`) is modelled by the boolean outcome `logged_in`.
* `switch` raises `ValueError` on an unknown id; it and the routines calling
  it are embedded in `Except String`.
* Python truthiness of an optional string (`if self._active_id:`) is
  `optStrTruthy`: `none` and `some ""` are falsy.
-/

/-- Substring relation on character lists: `listStartsWith p l` holds when `p`
is an initial segment of `l` (helper for Python's `in` on strings). -/
def listStartsWith : List Char → List Char → Bool
  | [], _ => true
  | _ :: _, [] => false
  | a :: as, b :: bs => a == b && listStartsWith as bs

/-- Python's `pat in hay` for strings: `pat` occurs contiguously in `hay`
(every string contains the empty string). -/
def strContains (hay pat : String) : Bool :=
  go pat.data hay.data
where
  go : List Char → List Char → Bool
    | p, [] => p.isEmpty
    | p, h :: t => listStartsWith p (h :: t) || go p t

/-- Python truthiness of a `str | None` value: `None` and `""` are falsy. -/
def optStrTruthy : Option String → Bool
  | none => false
  | some s => !(s == "")

/-- Capability enum from `src/backend/providers/base.py` (`class Capability`). -/
inductive Capability where
  | AUTH_QR_LOGIN
  | AUTH_PASSWORD
  | AUTH_ANONYMOUS
  | SEARCH_SONG
  | SEARCH_ALBUM
  | SEARCH_PLAYLIST
  | SEARCH_SUGGEST
  | SEARCH_HOT
  | PLAY_SONG
  | PLAY_QUALITY_LOSSLESS
  | PLAY_QUALITY_HIGH
  | PLAY_QUALITY_STANDARD
  | LYRIC_BASIC
  | LYRIC_WORD_BY_WORD
  | LYRIC_TRANSLATION
  | RECOMMEND_DAILY
  | RECOMMEND_PERSONALIZED
  | RECOMMEND_PLAYLIST
  | PLAYLIST_USER
  | PLAYLIST_FAVORITE
  | PLAYLIST_CREATE
  deriving DecidableEq, Repr

/-- Song record (`SongInfo` in `src/backend/types.py`, `total=False`): the
manager reads `name`, `singer` and `mid` with `.get`, so each is optional;
the remaining fields are never touched by the manager and are omitted. -/
structure SongInfo where
  name : Option String := none
  singer : Option String := none
  mid : Option String := none
  deriving DecidableEq, Repr

/-- Search response (`SearchResponse`): the manager tests `success` for
truthiness and reads `songs` with `result.get("songs") or []`, so a missing
or falsy `songs` behaves as `[]`. -/
structure SearchResponse where
  success : Bool := false
  songs : List SongInfo := []
  deriving DecidableEq, Repr

/-- Song-URL response (`SongUrlResponse`): `success` and `url` are only
truth-tested, `error` and the annotation fields are presence-sensitive. -/
structure SongUrlResponse where
  success : Bool := false
  url : String := ""
  mid : Option String := none
  error : Option String := none
  provider : Option String := none
  fallback_provider : Option String := none
  original_provider : Option String := none
  matched_song : Option SongInfo := none
  deriving DecidableEq, Repr

/-- Lyric response (`SongLyricResponse`): as for URLs; the `provider` field
is carried so that its absence (the manager never writes it on the lyric
path, and `SongLyricResponse` in `types.py` does not even declare the key)
is observable as `none`. -/
structure SongLyricResponse where
  success : Bool := false
  lyric : String := ""
  trans : String := ""
  error : Option String := none
  provider : Option String := none
  fallback_provider : Option String := none
  original_provider : Option String := none
  deriving DecidableEq, Repr

/-- A provider (`MusicProvider` of `base.py`): identity, declared capability
set, the boolean outcome of `ensure_provider_logged_in` for it, and its three
backend operations used by the manager, as pure functions. -/
structure MusicProvider where
  id : String
  name : String
  capabilities : List Capability
  logged_in : Bool
  search_songs : String → Nat → Nat → SearchResponse
  get_song_url : String → Option String → SongUrlResponse
  get_song_lyric : String → Bool → SongLyricResponse

/-- `MusicProvider.has_capability`: membership in the declared set. -/
def MusicProvider.has_capability (p : MusicProvider) (cap : Capability) : Bool :=
  p.capabilities.contains cap

/-- Manager state (`ProviderManager.__init__`): the registry is an
insertion-ordered association list (Python `dict`), plus `_active_id` and
`_fallback_ids`. -/
structure ManagerState where
  providers : List (String × MusicProvider) := []
  active_id : Option String := none
  fallback_ids : List String := []

/-- Fresh manager (`ProviderManager.__init__`). -/
def initState : ManagerState := {}

/-- `ProviderManager.register`: `self._providers[provider.id] = provider` —
dict insert keeps an existing key's position and replaces its value,
otherwise appends. -/
def ManagerState.register (st : ManagerState) (p : MusicProvider) : ManagerState :=
  if (st.providers.lookup p.id).isSome then
    { st with providers := st.providers.map (fun e => if e.1 == p.id then (e.1, p) else e) }
  else
    { st with providers := st.providers ++ [(p.id, p)] }

/-- `ProviderManager.set_fallback_order`: keep exactly the input ids present
in the registry, in input order. -/
def ManagerState.set_fallback_order (st : ManagerState) (provider_ids : List String) :
    ManagerState :=
  { st with fallback_ids := provider_ids.filter (fun pid => (st.providers.lookup pid).isSome) }

/-- `ProviderManager.switch`: raise `ValueError` on an unknown id, otherwise
set `_active_id`. -/
def ManagerState.switch (st : ManagerState) (provider_id : String) :
    Except String ManagerState :=
  if (st.providers.lookup provider_id).isSome then
    Except.ok { st with active_id := some provider_id }
  else
    Except.error ("Unknown provider: " ++ provider_id)

/-- `ProviderManager.get_provider`: registry lookup. -/
def ManagerState.get_provider (st : ManagerState) (provider_id : String) :
    Option MusicProvider :=
  st.providers.lookup provider_id

/-- `ProviderManager.active`: `None` when `_active_id` is unset or the id is
(impossibly, via the public operations) absent from the registry. -/
def ManagerState.active (st : ManagerState) : Option MusicProvider :=
  match st.active_id with
  | none => none
  | some aid => st.providers.lookup aid

/-- Tie-break of `_match_song_in_provider`: the first `for` loop returns the
first song whose `name` equals `song_name` and whose `singer` (defaulting to
`""`) contains `singer`; the second returns the first song whose `name`
equals `song_name`. -/
def tieBreakFind (songs : List SongInfo) (song_name singer : String) : Option SongInfo :=
  match songs.find? (fun s =>
      s.name == some song_name && strContains (s.singer.getD "") singer) with
  | some s => some s
  | none => songs.find? (fun s => s.name == some song_name)

/-- `ProviderManager._match_song_in_provider`: gate on `SEARCH_SONG`, search
`"{song_name} {singer}"` (page 1, num 10), bail out on failure or an empty
song list, then apply the tie-break. -/
def matchSongInProvider (provider : MusicProvider) (song_name singer : String) :
    Option SongInfo :=
  if !(provider.has_capability Capability.SEARCH_SONG) then none
  else
    let result := provider.search_songs (song_name ++ " " ++ singer) 1 10
    if !result.success || result.songs.isEmpty then none
    else tieBreakFind result.songs song_name singer

/-- `result.get("success") and result.get("url")` — a usable URL response. -/
def urlUsable (r : SongUrlResponse) : Bool :=
  r.success && !(r.url == "")

/-- `result.get("success") and result.get("lyric")` — a usable lyric
response. -/
def lyricUsable (r : SongLyricResponse) : Bool :=
  r.success && !(r.lyric == "")

/-- The `for fb_id in self._fallback_ids` loop of
`get_song_url_with_fallback`: skip the active id, missing providers,
providers without a match, and unusable fallback results; on the first usable
result annotate it with `fallback_provider`, `original_provider` (only when
`self._active_id` is truthy) and `matched_song`. -/
def urlFallbackLoop (st : ManagerState) (song_name singer : String) (q : Option String) :
    List String → Option SongUrlResponse
  | [] => none
  | fb_id :: rest =>
    if st.active_id == some fb_id then urlFallbackLoop st song_name singer q rest
    else
      match st.providers.lookup fb_id with
      | none => urlFallbackLoop st song_name singer q rest
      | some fb =>
        match matchSongInProvider fb song_name singer with
        | none => urlFallbackLoop st song_name singer q rest
        | some matched =>
          let fb_result := fb.get_song_url (matched.mid.getD "") q
          if urlUsable fb_result then
            some { fb_result with
                    fallback_provider := some fb_id,
                    original_provider :=
                      if optStrTruthy st.active_id then st.active_id
                      else fb_result.original_provider,
                    matched_song := some matched }
          else urlFallbackLoop st song_name singer q rest

/-- `ProviderManager.get_song_url_with_fallback`. -/
def get_song_url_with_fallback (st : ManagerState) (mid song_name singer : String)
    (preferred_quality : Option String) : SongUrlResponse :=
  match st.active with
  | none => { success := false, error := some "No active provider", url := "", mid := some mid }
  | some act =>
    let result := act.get_song_url mid preferred_quality
    if urlUsable result then { result with provider := some act.id }
    else
      let original_error := result.error.getD "Unknown error"
      match urlFallbackLoop st song_name singer preferred_quality st.fallback_ids with
      | some r => r
      | none =>
        let base : SongUrlResponse :=
          { success := false, error := some original_error, url := "", mid := some mid }
        if optStrTruthy st.active_id then { base with provider := st.active_id } else base

/-- The fallback loop of `get_song_lyric_with_fallback`: additionally gated on
`LYRIC_BASIC`; a usable result is annotated with `fallback_provider` and
(when the active id is truthy) `original_provider` — no `matched_song`. -/
def lyricFallbackLoop (st : ManagerState) (song_name singer : String) (qrc : Bool) :
    List String → Option SongLyricResponse
  | [] => none
  | fb_id :: rest =>
    if st.active_id == some fb_id then lyricFallbackLoop st song_name singer qrc rest
    else
      match st.providers.lookup fb_id with
      | none => lyricFallbackLoop st song_name singer qrc rest
      | some fb =>
        if !(fb.has_capability Capability.LYRIC_BASIC) then
          lyricFallbackLoop st song_name singer qrc rest
        else
          match matchSongInProvider fb song_name singer with
          | none => lyricFallbackLoop st song_name singer qrc rest
          | some matched =>
            let fb_result := fb.get_song_lyric (matched.mid.getD "") qrc
            if lyricUsable fb_result then
              some { fb_result with
                      fallback_provider := some fb_id,
                      original_provider :=
                        if optStrTruthy st.active_id then st.active_id
                        else fb_result.original_provider }
            else lyricFallbackLoop st song_name singer qrc rest

/-- `ProviderManager.get_song_lyric_with_fallback`: on a usable active result
return it unchanged; on fallback exhaustion return the active provider's
original response unchanged. -/
def get_song_lyric_with_fallback (st : ManagerState) (mid song_name singer : String)
    (qrc : Bool) : SongLyricResponse :=
  match st.active with
  | none => { success := false, error := some "No active provider", lyric := "", trans := "" }
  | some act =>
    let result := act.get_song_lyric mid qrc
    if lyricUsable result then result
    else
      match lyricFallbackLoop st song_name singer qrc st.fallback_ids with
      | some r => r
      | none => result

/-- The `else` branch of `apply_provider_config`'s main-provider phase: walk
`all_providers()` in registration order and `switch` to the first logged-in
one (`switch` can only fail on a registry whose key differs from the stored
provider's `id`, which the public operations never produce). -/
def autoSwitchFirstLoggedIn (st : ManagerState) :
    List (String × MusicProvider) → Except String ManagerState
  | [] => Except.ok st
  | e :: rest =>
    if e.2.logged_in then st.switch e.2.id
    else autoSwitchFirstLoggedIn st rest

/-- The fallback-assembly loop of `apply_provider_config`: keep configured
ids that differ from the (post-switch) active id, are registered, and are
logged in. -/
def buildFallbackIds (st1 : ManagerState) : List String → List String
  | [] => []
  | fb_id :: rest =>
    if st1.active_id == some fb_id then buildFallbackIds st1 rest
    else
      match st1.providers.lookup fb_id with
      | some p =>
        if p.logged_in then fb_id :: buildFallbackIds st1 rest
        else buildFallbackIds st1 rest
      | none => buildFallbackIds st1 rest

/-- The main-provider phase of `apply_provider_config`: `if main_id:` is
Python truthiness, so a configured empty string behaves like no configured
main provider; a configured id is activated only when registered and logged
in, and the registration-order scan runs only when no main id is
configured. -/
def applyMainPhase (st : ManagerState) (main_id : Option String) :
    Except String ManagerState :=
  if optStrTruthy main_id then
    match st.get_provider (main_id.getD "") with
    | some p =>
      if p.logged_in then st.switch (main_id.getD "") else Except.ok st
    | none => Except.ok st
  else
    autoSwitchFirstLoggedIn st st.providers

/-- `ProviderManager.apply_provider_config`, with the two configuration reads
(`config.get_main_provider_id()`, `config.get_fallback_provider_ids()`)
passed in as arguments. -/
def apply_provider_config (st : ManagerState) (main_id : Option String)
    (fallback_ids_config : List String) : Except String ManagerState := do
  let st1 ← applyMainPhase st main_id
  Except.ok (st1.set_fallback_order (buildFallbackIds st1 fallback_ids_config))

/-- Result shape of `get_provider_selection`. -/
structure ProviderSelection where
  success : Bool
  mainProvider : Option String
  fallbackProviders : List String
  error : Option String := none
  deriving DecidableEq, Repr

/-- The fallback loop of `get_provider_selection`: skip ids equal to the
*reported* main id, keep those registered and logged in. -/
def selectionFallbacks (st : ManagerState) (main_id : Option String) :
    List String → List String
  | [] => []
  | fb_id :: rest =>
    if main_id == some fb_id then selectionFallbacks st main_id rest
    else
      match st.get_provider fb_id with
      | some p =>
        if p.logged_in then fb_id :: selectionFallbacks st main_id rest
        else selectionFallbacks st main_id rest
      | none => selectionFallbacks st main_id rest

/-- The local `main_id` computed by `get_provider_selection`: the active
provider's own `id` when it is logged in, else `None`. -/
def selectionMain (st : ManagerState) : Option String :=
  match st.active with
  | some p => if p.logged_in then some p.id else none
  | none => none

/-- `ProviderManager.get_provider_selection`: a read-only query (the source
assigns no manager field, so the embedding is a pure function of the state);
its `except` arm is unreachable here because the provider calls are modelled
as total functions. -/
def get_provider_selection (st : ManagerState) (fallback_ids_config : List String) :
    ProviderSelection :=
  { success := true
    mainProvider := selectionMain st
    fallbackProviders := selectionFallbacks st (selectionMain st) fallback_ids_config }

/-- The manager operations a caller can run, for stating state invariants
over arbitrary operation sequences. -/
inductive MgrOp where
  | reg (p : MusicProvider)
  | sw (pid : String)
  | setFb (ids : List String)
  | applyCfg (main_id : Option String) (cfg : List String)

/-- One operation applied to the state; an operation that raises
(`switch` on an unknown id) leaves the state unchanged in the caller. -/
def stepOp (st : ManagerState) : MgrOp → ManagerState
  | .reg p => st.register p
  | .sw pid =>
    match st.switch pid with
    | .ok s => s
    | .error _ => st
  | .setFb ids => st.set_fallback_order ids
  | .applyCfg m cfg =>
    match apply_provider_config st m cfg with
    | .ok s => s
    | .error _ => st

/-- A sequence of operations from a given state. -/
def runOps (st : ManagerState) : List MgrOp → ManagerState
  | [] => st
  | op :: rest => runOps (stepOp st op) rest

/-- Registry well-formedness: every entry is keyed by its provider's own
`id` (guaranteed by `register`, which stores under `provider.id`). -/
def WfKeys (st : ManagerState) : Prop :=
  ∀ e ∈ st.providers, e.1 = e.2.id

instance (st : ManagerState) : Decidable (WfKeys st) :=
  List.decidableBAll _ st.providers

/-- Closed form of the main-provider phase of `apply_provider_config`. -/
def mainPhaseActive (st : ManagerState) (main_id : Option String) : Option String :=
  if optStrTruthy main_id then
    match st.providers.lookup (main_id.getD "") with
    | some p => if p.logged_in then some (main_id.getD "") else st.active_id
    | none => st.active_id
  else
    match st.providers.find? (fun e => e.2.logged_in) with
    | some e => some e.2.id
    | none => st.active_id

/-- Whether the registry holds a logged-in provider under `pid`. -/
def loggedInAt (provs : List (String × MusicProvider)) (pid : String) : Bool :=
  match provs.lookup pid with
  | some p => p.logged_in
  | none => false

/-- Filtering predicate shared by `apply_provider_config`'s fallback assembly
and `get_provider_selection`'s reported fallbacks: differs from the given
main id, registered, and logged in. -/
def fbPred (provs : List (String × MusicProvider)) (main_id : Option String)
    (fb_id : String) : Bool :=
  !(main_id == some fb_id) && loggedInAt provs fb_id

/-- A provider with its per-song query functions replaced (used to state
that a capability-gated provider is never queried: the routing outcome is
independent of those functions). -/
def overrideQueries (p : MusicProvider) (f : String → Nat → Nat → SearchResponse)
    (g : String → Bool → SongLyricResponse)
    (u : String → Option String → SongUrlResponse) : MusicProvider :=
  { p with search_songs := f, get_song_lyric := g, get_song_url := u }

/-- Replace the provider stored under `pid` (keys untouched). -/
def replaceProvider (st : ManagerState) (pid : String) (p' : MusicProvider) :
    ManagerState :=
  { st with providers := st.providers.map (fun e => if e.1 == pid then (e.1, p') else e) }

/-! ### Concrete fixture providers (used by witnesses and counterexamples) -/

/-- Default search of `MusicProvider.search_songs` in `base.py`
("Not implemented"): failure with no songs. -/
def baseSearch : String → Nat → Nat → SearchResponse :=
  fun _ _ _ => { success := false, songs := [] }

/-- Default `get_song_url` of `base.py`: `Not implemented` failure echoing
the mid. -/
def baseUrl : String → Option String → SongUrlResponse :=
  fun mid _ => { success := false, error := some "Not implemented", url := "", mid := some mid }

/-- Default `get_song_lyric` of `base.py`: `Not implemented` failure. -/
def baseLyric : String → Bool → SongLyricResponse :=
  fun _ _ => { success := false, error := some "Not implemented", lyric := "", trans := "" }

/-- Fixture active provider `a`: logged in, fails URL fetches with error
`no source`. -/
def provA : MusicProvider :=
  { id := "a", name := "A", capabilities := [Capability.PLAY_SONG], logged_in := true,
    search_songs := baseSearch,
    get_song_url := fun mid _ =>
      { success := false, error := some "no source", url := "", mid := some mid },
    get_song_lyric := baseLyric }

/-- The song record returned by fixture provider `b`'s search. -/
def yesterdaySong : SongInfo :=
  { name := some "Yesterday", singer := some "The Beatles", mid := some "b42" }

/-- Fixture fallback provider `b`: searchable, serves URLs. -/
def provB : MusicProvider :=
  { id := "b", name := "B",
    capabilities := [Capability.SEARCH_SONG, Capability.PLAY_SONG], logged_in := true,
    search_songs := fun _ _ _ => { success := true, songs := [yesterdaySong] },
    get_song_url := fun mid _ =>
      { success := true, url := "https://b.example/" ++ mid, mid := some mid },
    get_song_lyric := baseLyric }

/-- Fixture state for the fallback-routing scenario: `a` active, `b` the
only fallback. -/
def stC1 : ManagerState :=
  { providers := [("a", provA), ("b", provB)],
    active_id := some "a",
    fallback_ids := ["b"] }

/-- Fixture provider `c`: active provider whose URL and lyric calls both
succeed with non-empty payloads. -/
def provCL : MusicProvider :=
  { id := "c", name := "C", capabilities := [Capability.PLAY_SONG, Capability.LYRIC_BASIC],
    logged_in := true,
    search_songs := baseSearch,
    get_song_url := fun mid _ => { success := true, url := "u", mid := some mid },
    get_song_lyric := fun _ _ => { success := true, lyric := "L", trans := "" } }

/-- State with `c` active and no fallbacks. -/
def stC6 : ManagerState :=
  { providers := [("c", provCL)], active_id := some "c", fallback_ids := [] }

/-- Fixture active provider failing lyrics with error `paywalled`. -/
def provA2 : MusicProvider :=
  { id := "a", name := "A2", capabilities := [Capability.PLAY_SONG], logged_in := true,
    search_songs := baseSearch,
    get_song_url := fun mid _ =>
      { success := false, error := some "paywalled", url := "", mid := some mid },
    get_song_lyric := fun _ _ =>
      { success := false, error := some "paywalled", lyric := "", trans := "" } }

/-- Fixture fallback provider whose search returns only a song with a
different name (no name-exact match). -/
def provB2 : MusicProvider :=
  { id := "b", name := "B2",
    capabilities := [Capability.SEARCH_SONG, Capability.LYRIC_BASIC], logged_in := true,
    search_songs := fun _ _ _ =>
      { success := true, songs := [{ name := some "Other", singer := some "X", mid := some "o1" }] },
    get_song_url := fun mid _ => { success := true, url := "wrongu", mid := some mid },
    get_song_lyric := fun _ _ => { success := true, lyric := "wrongl", trans := "" } }

/-- Exhaustion fixture: `a` active and failing, `b` the only fallback,
yielding no match. -/
def stC2 : ManagerState :=
  { providers := [("a", provA2), ("b", provB2)], active_id := some "a",
    fallback_ids := ["b"] }

/-- A provider template with all backend calls at their base-class
defaults. -/
def mkPlainProvider (pid pname : String) (caps : List Capability) (li : Bool) :
    MusicProvider :=
  { id := pid, name := pname, capabilities := caps, logged_in := li,
    search_songs := baseSearch, get_song_url := baseUrl, get_song_lyric := baseLyric }

/-- Three registered providers of which only `netease` is logged in, none
active. -/
def stC3 : ManagerState :=
  { providers :=
      [("qqmusic", mkPlainProvider "qqmusic" "QQ" [Capability.SEARCH_SONG] false),
       ("netease", mkPlainProvider "netease" "NE" [Capability.SEARCH_SONG] true),
       ("other", mkPlainProvider "other" "OT" [] false)],
    active_id := none, fallback_ids := [] }

/-- State with a (now logged-out) active provider `a` and a logged-out
configured main candidate `q`. -/
def stC10 : ManagerState :=
  { providers :=
      [("a", mkPlainProvider "a" "A" [] false),
       ("q", mkPlainProvider "q" "Q" [] false)],
    active_id := some "a", fallback_ids := [] }

/-- Fixture fallback provider lacking both `SEARCH_SONG` and `LYRIC_BASIC`
whose query functions would nevertheless produce usable answers if they were
(wrongly) consulted. -/
def provX : MusicProvider :=
  { id := "x", name := "X", capabilities := [Capability.PLAY_SONG], logged_in := true,
    search_songs := fun _ _ _ =>
      { success := true, songs := [{ name := some "N", singer := some "S", mid := some "x1" }] },
    get_song_url := fun mid _ => { success := true, url := "xu", mid := some mid },
    get_song_lyric := fun _ _ => { success := true, lyric := "XL", trans := "" } }

/-- Capability-gating fixture: failing active `a`, capability-less fallback
`x`. -/
def stC7 : ManagerState :=
  { providers := [("a", provA2), ("x", provX)], active_id := some "a",
    fallback_ids := ["x"] }

/-! ### Claim theorems -/

/-- C1: when the active provider's `get_song_url` fails or returns an empty
url, and the first fallback id (distinct from the active id) resolves to a
provider with `SEARCH_SONG` whose search for `"{songName} {singer}"` (page 1,
limit 10) succeeds with a non-empty song list on which the tie-break (exact
name plus singer-substring, then exact name) selects `s0`, and that
provider's `get_song_url` on `s0`'s mid succeeds with a non-empty url, then
the overall result is that fallback result annotated with
`fallback_provider`, `original_provider` (the formerly active id) and
`matched_song = s0`. -/
theorem url_fallback_first_match_success
    (st : ManagerState) (mid song_name singer : String) (q : Option String)
    (act : MusicProvider) (bid : String) (rest : List String)
    (B : MusicProvider) (sr : SearchResponse) (s0 : SongInfo) (r1 : SongUrlResponse)
    (hact : st.active = some act)
    (hfail : urlUsable (act.get_song_url mid q) = false)
    (hfb : st.fallback_ids = bid :: rest)
    (hskip : st.active_id ≠ some bid)
    (hB : st.providers.lookup bid = some B)
    (hcap : B.has_capability Capability.SEARCH_SONG = true)
    (hsearch : B.search_songs (song_name ++ " " ++ singer) 1 10 = sr)
    (hsucc : sr.success = true)
    (hne : sr.songs.isEmpty = false)
    (htb : tieBreakFind sr.songs song_name singer = some s0)
    (hr1 : B.get_song_url (s0.mid.getD "") q = r1)
    (hok : urlUsable r1 = true) :
    get_song_url_with_fallback st mid song_name singer q =
      { r1 with
        fallback_provider := some bid,
        original_provider :=
          if optStrTruthy st.active_id then st.active_id else r1.original_provider,
        matched_song := some s0 } := by
  have hmatch : matchSongInProvider B song_name singer = some s0 := by
    unfold matchSongInProvider
    rw [hcap, hsearch]
    simp [hsucc, hne, htb]
  have hskip' : (st.active_id == some bid) = false := by
    simpa using hskip
  have hloop : urlFallbackLoop st song_name singer q st.fallback_ids =
      some { r1 with
        fallback_provider := some bid,
        original_provider :=
          if optStrTruthy st.active_id then st.active_id else r1.original_provider,
        matched_song := some s0 } := by
    rw [hfb]
    unfold urlFallbackLoop
    rw [hskip', hB]
    simp only [hmatch, hr1, hok, if_false, if_true, Bool.false_eq_true, ite_true, ite_false]
  unfold get_song_url_with_fallback
  rw [hact]
  simp only [hfail, Bool.false_eq_true, if_false, ite_false]
  rw [hloop]

/-- Witness for C1: the literal fixture (`songName="Yesterday"`,
`singer="Beatles"`, fallback search returning
`{name:"Yesterday", singer:"The Beatles", mid:"b42"}`) routed through the
fallback. -/
theorem url_fallback_first_match_success_witness :
    get_song_url_with_fallback stC1 "1" "Yesterday" "Beatles" none =
      { success := true, url := "https://b.example/b42", mid := some "b42",
        fallback_provider := some "b", original_provider := some "a",
        matched_song := some yesterdaySong } := by
  have h := url_fallback_first_match_success stC1 "1" "Yesterday" "Beatles" none
    provA "b" [] provB { success := true, songs := [yesterdaySong] } yesterdaySong
    { success := true, url := "https://b.example/b42", mid := some "b42" }
    rfl (by decide) rfl (by decide) rfl (by decide) rfl rfl (by decide)
    (by decide) rfl (by decide)
  exact h.trans (by decide)

/-- C6 counterexample: with active provider `c` whose lyric call succeeds,
the lyric result is returned without any `provider` tag (the field stays
absent), so the claim that both operations tag the result with
`provider = active_id` is false. -/
theorem lyric_active_success_untagged_counterexample :
    (get_song_lyric_with_fallback stC6 "m" "n" "s" true).provider = none ∧
    stC6.active_id = some "c" := by
  constructor
  · rfl
  · rfl

/-- C6 (amended): when the active provider's own attempt succeeds with a
non-empty payload, `get_song_url_with_fallback` returns it immediately
tagged with `provider = active.id`, while `get_song_lyric_with_fallback`
returns it immediately unchanged, without a provider tag. -/
theorem active_success_immediate_return
    (st : ManagerState) (mid song_name singer : String) (q : Option String) (qrc : Bool)
    (act : MusicProvider) (hact : st.active = some act)
    (hurl : urlUsable (act.get_song_url mid q) = true)
    (hlyr : lyricUsable (act.get_song_lyric mid qrc) = true) :
    get_song_url_with_fallback st mid song_name singer q =
      { act.get_song_url mid q with provider := some act.id } ∧
    get_song_lyric_with_fallback st mid song_name singer qrc =
      act.get_song_lyric mid qrc := by
  constructor
  · unfold get_song_url_with_fallback
    rw [hact]
    simp only [hurl, if_true, ite_true]
  · unfold get_song_lyric_with_fallback
    rw [hact]
    simp only [hlyr, if_true, ite_true]

/-- Witness for C6 (amended): concrete active success on both operations. -/
theorem active_success_immediate_return_witness :
    get_song_url_with_fallback stC6 "m" "n" "s" none =
      { success := true, url := "u", mid := some "m", provider := some "c" } ∧
    get_song_lyric_with_fallback stC6 "m" "n" "s" true =
      { success := true, lyric := "L", trans := "" } := by
  have h := active_success_immediate_return stC6 "m" "n" "s" none true provCL rfl
    (by decide) (by decide)
  exact ⟨h.1.trans (by decide), h.2.trans (by decide)⟩

/-- C2 counterexample: active provider `a` fails lyrics with `paywalled`,
the only fallback yields no name-exact match, and the returned failure does
carry the original error but carries no provider id at all, although `a`
was active — refuting the claim's `carries the original active provider's
id` part for the lyric operation. -/
theorem lyric_exhaustion_no_provider_id_counterexample :
    (get_song_lyric_with_fallback stC2 "1" "Song" "S" true).error = some "paywalled" ∧
    (get_song_lyric_with_fallback stC2 "1" "Song" "S" true).provider = none ∧
    stC2.active_id = some "a" := by
  refine ⟨?_, ?_, rfl⟩ <;> rfl

/-- C2 (amended): on fallback exhaustion, `get_song_url_with_fallback`
returns a failure whose error is the original active-provider error
(defaulting to `Unknown error` when absent) tagged with the active id when
one was truthy, while `get_song_lyric_with_fallback` returns the active
provider's original response unchanged (so it carries the original error
but no provider id is added). -/
theorem fallback_exhaustion_original_error
    (st : ManagerState) (mid song_name singer : String) (q : Option String) (qrc : Bool)
    (act : MusicProvider) (hact : st.active = some act)
    (hufail : urlUsable (act.get_song_url mid q) = false)
    (huloop : urlFallbackLoop st song_name singer q st.fallback_ids = none)
    (hlfail : lyricUsable (act.get_song_lyric mid qrc) = false)
    (hlloop : lyricFallbackLoop st song_name singer qrc st.fallback_ids = none) :
    ((get_song_url_with_fallback st mid song_name singer q).success = false ∧
     (get_song_url_with_fallback st mid song_name singer q).error =
       some ((act.get_song_url mid q).error.getD "Unknown error") ∧
     (get_song_url_with_fallback st mid song_name singer q).provider =
       (if optStrTruthy st.active_id then st.active_id else none)) ∧
    get_song_lyric_with_fallback st mid song_name singer qrc =
      act.get_song_lyric mid qrc := by
  have hu : get_song_url_with_fallback st mid song_name singer q =
      (let base : SongUrlResponse :=
        { success := false,
          error := some ((act.get_song_url mid q).error.getD "Unknown error"),
          url := "", mid := some mid }
       if optStrTruthy st.active_id then { base with provider := st.active_id } else base) := by
    unfold get_song_url_with_fallback
    rw [hact]
    simp only [hufail, Bool.false_eq_true, if_false, ite_false]
    rw [huloop]
  constructor
  · rw [hu]
    cases hb : optStrTruthy st.active_id <;> simp [hb]
  · unfold get_song_lyric_with_fallback
    rw [hact]
    simp only [hlfail, Bool.false_eq_true, if_false, ite_false]
    rw [hlloop]

/-- Witness for C2 (amended): the `paywalled` exhaustion fixture. -/
theorem fallback_exhaustion_original_error_witness :
    ((get_song_url_with_fallback stC2 "1" "Song" "S" none).success = false ∧
     (get_song_url_with_fallback stC2 "1" "Song" "S" none).error = some "paywalled" ∧
     (get_song_url_with_fallback stC2 "1" "Song" "S" none).provider = some "a") ∧
    get_song_lyric_with_fallback stC2 "1" "Song" "S" true =
      { success := false, error := some "paywalled", lyric := "", trans := "" } := by
  have h := fallback_exhaustion_original_error stC2 "1" "Song" "S" none true provA2
    rfl (by decide) (by decide) (by decide) (by decide)
  exact ⟨⟨h.1.1, h.1.2.1.trans (by decide), h.1.2.2.trans (by decide)⟩,
    h.2.trans (by decide)⟩

/-- C4 counterexample: with `a` active and both `a` and `b` registered,
`set_fallback_order ["a", "b"]` stores `["a", "b"]` — the active id is not
excluded from the stored list, refuting the claim. -/
theorem set_fallback_order_keeps_active_counterexample :
    (stC1.set_fallback_order ["a", "b"]).fallback_ids = ["a", "b"] ∧
    (stC1.set_fallback_order ["a", "b"]).fallback_ids ≠ ["b"] ∧
    stC1.active_id = some "a" := by
  refine ⟨by rfl, by decide, rfl⟩

/-- C4 (amended): `set_fallback_order` stores exactly the input filtered to
registered ids, order preserved, touching nothing else; the active id is not
excluded from the stored list — instead the dispatch-time walk skips an id
equal to the active id. -/
theorem set_fallback_order_filters_registered
    (st : ManagerState) (ids : List String) :
    (st.set_fallback_order ids).fallback_ids =
      ids.filter (fun pid => (st.providers.lookup pid).isSome) ∧
    (st.set_fallback_order ids).providers = st.providers ∧
    (st.set_fallback_order ids).active_id = st.active_id ∧
    (∀ fb rest song_name singer q, st.active_id = some fb →
      urlFallbackLoop st song_name singer q (fb :: rest) =
        urlFallbackLoop st song_name singer q rest) ∧
    (∀ fb rest song_name singer qrc, st.active_id = some fb →
      lyricFallbackLoop st song_name singer qrc (fb :: rest) =
        lyricFallbackLoop st song_name singer qrc rest) := by
  refine ⟨rfl, rfl, rfl, ?_, ?_⟩
  · intro fb rest song_name singer q h
    conv_lhs => rw [urlFallbackLoop.eq_def]
    simp [h]
  · intro fb rest song_name singer qrc h
    conv_lhs => rw [lyricFallbackLoop.eq_def]
    simp [h]

/-- Witness for C4 (amended): the stored list keeps the active id `a`, and
the dispatch walk starting at `a` skips it. -/
theorem set_fallback_order_filters_registered_witness :
    (stC1.set_fallback_order ["a", "b", "zz"]).fallback_ids = ["a", "b"] ∧
    urlFallbackLoop stC1 "n" "s" none ["a"] = none := by
  have h := set_fallback_order_filters_registered stC1 ["a", "b", "zz"]
  refine ⟨h.1.trans (by decide), ?_⟩
  have h2 := h.2.2.2.1 "a" [] "n" "s" none rfl
  exact h2.trans (by rfl)

/-- C8: `switch` on an unregistered id returns the structured
`Unknown provider` error and, as an operation step, leaves the state (in
particular `active_id`) unchanged. -/
theorem switch_unknown_provider_fails
    (st : ManagerState) (pid : String)
    (h : st.providers.lookup pid = none) :
    st.switch pid = Except.error ("Unknown provider: " ++ pid) ∧
    stepOp st (.sw pid) = st := by
  have hb : (st.providers.lookup pid).isSome = false := by
    rw [h]; rfl
  constructor
  · unfold ManagerState.switch
    simp [hb]
  · unfold stepOp ManagerState.switch
    simp [hb]

/-- Witness for C8: switching to the unregistered id `zz`. -/
theorem switch_unknown_provider_fails_witness :
    stC1.switch "zz" = Except.error "Unknown provider: zz" ∧
    stepOp stC1 (.sw "zz") = stC1 := by
  have h := switch_unknown_provider_fails stC1 "zz" rfl
  exact ⟨h.1, h.2⟩

/-- A key present as a pair in an association list is found by `lookup`. -/
theorem lookup_isSome_of_mem {l : List (String × MusicProvider)} {k : String}
    {v : MusicProvider} (h : (k, v) ∈ l) : (l.lookup k).isSome = true := by
  induction l with
  | nil => cases h
  | cons e t ih =>
    obtain ⟨ek, ev⟩ := e
    rcases List.mem_cons.mp h with h1 | h2
    · cases h1
      simp [List.lookup]
    · by_cases hk : k = ek
      · subst hk
        simp [List.lookup]
      · have hk' : (k == ek) = false := beq_eq_false_iff_ne.mpr hk
        simp only [List.lookup, hk']
        exact ih h2

/-- Closed form of the automatic-selection scan: it activates the first
logged-in registered provider and leaves `active_id` alone when none is. -/
theorem autoSwitchFirstLoggedIn_ok (st : ManagerState)
    (l : List (String × MusicProvider))
    (h : ∀ e ∈ l, (st.providers.lookup e.2.id).isSome = true) :
    autoSwitchFirstLoggedIn st l =
      Except.ok { st with active_id :=
        (match l.find? (fun e => e.2.logged_in) with
         | some e => some e.2.id
         | none => st.active_id) } := by
  induction l with
  | nil => simp [autoSwitchFirstLoggedIn, List.find?]
  | cons e t ih =>
    cases hl : e.2.logged_in with
    | true =>
      have hs := h e (List.mem_cons_self e t)
      simp [autoSwitchFirstLoggedIn, List.find?, hl, ManagerState.switch, hs]
    | false =>
      simp only [autoSwitchFirstLoggedIn, List.find?, hl, Bool.false_eq_true, if_false,
        ite_false]
      exact ih (fun e' he' => h e' (List.mem_cons_of_mem e he'))

/-- The fallback-assembly loop of `apply_provider_config` is the `fbPred`
filter of the configured list. -/
theorem buildFallbackIds_eq_filter (st1 : ManagerState) (cfg : List String) :
    buildFallbackIds st1 cfg = cfg.filter (fbPred st1.providers st1.active_id) := by
  induction cfg with
  | nil => rfl
  | cons fb rest ih =>
    by_cases hsk : st1.active_id = some fb
    · simp [buildFallbackIds, List.filter_cons, fbPred, hsk, ih]
    · have hsk' : (st1.active_id == some fb) = false := beq_eq_false_iff_ne.mpr hsk
      cases hlk : st1.providers.lookup fb with
      | none => simp [buildFallbackIds, List.filter_cons, fbPred, loggedInAt, hsk', hlk, ih]
      | some p =>
        cases hp : p.logged_in <;>
          simp [buildFallbackIds, List.filter_cons, fbPred, loggedInAt, hsk', hlk, hp, ih]

/-- `fbPred` only accepts registered ids. -/
theorem fbPred_registered (provs : List (String × MusicProvider))
    (main : Option String) (pid : String) (h : fbPred provs main pid = true) :
    (provs.lookup pid).isSome = true := by
  unfold fbPred loggedInAt at h
  cases hlk : provs.lookup pid
  · rw [hlk] at h
    simp at h
  · rfl

/-- Re-filtering an `fbPred`-filtered list by registration is the
identity. -/
theorem filter_fbPred_self (provs : List (String × MusicProvider))
    (main : Option String) (l : List String) :
    (l.filter (fbPred provs main)).filter (fun pid => (provs.lookup pid).isSome) =
      l.filter (fbPred provs main) := by
  apply List.filter_eq_self.mpr
  intro a ha
  exact fbPred_registered provs main a (List.mem_filter.mp ha).2

/-- Binding a successful `Except` computation applies the continuation. -/
theorem exceptBindOk (x : ManagerState) (f : ManagerState → Except String ManagerState) :
    (Except.ok (ε := String) x >>= f) = f x := rfl

/-- Closed form of the main-provider phase under a well-keyed registry. -/
theorem applyMainPhase_ok (st : ManagerState) (main : Option String)
    (hwf : WfKeys st) :
    applyMainPhase st main = Except.ok { st with active_id := mainPhaseActive st main } := by
  unfold applyMainPhase mainPhaseActive ManagerState.get_provider
  cases htr : optStrTruthy main with
  | false =>
    simp only [Bool.false_eq_true, if_false, ite_false]
    refine (autoSwitchFirstLoggedIn_ok st st.providers ?_)
    intro e he
    have hke : e.1 = e.2.id := hwf e he
    have hmem : (e.2.id, e.2) ∈ st.providers := by
      rw [← hke]
      exact he
    exact lookup_isSome_of_mem hmem
  | true =>
    simp only [if_true, ite_true]
    cases hlk : st.providers.lookup (main.getD "") with
    | none => simp
    | some p =>
      cases hp : p.logged_in with
      | false => simp [hp]
      | true =>
        simp only [hp, if_true, ite_true]
        unfold ManagerState.switch
        have hs : (st.providers.lookup (main.getD "")).isSome = true := by
          rw [hlk]; rfl
        simp [hs]

/-- Closed form of `apply_provider_config` under a well-keyed registry: it
succeeds, sets `active_id` to `mainPhaseActive` and replaces `fallback_ids`
by the `fbPred` filter of the configured list. -/
theorem apply_provider_config_ok (st : ManagerState) (main : Option String)
    (cfg : List String) (hwf : WfKeys st) :
    apply_provider_config st main cfg =
      Except.ok
        { st with
          active_id := mainPhaseActive st main,
          fallback_ids := cfg.filter (fbPred st.providers (mainPhaseActive st main)) } := by
  unfold apply_provider_config
  rw [applyMainPhase_ok st main hwf, exceptBindOk]
  show Except.ok (ManagerState.set_fallback_order _ _) = _
  unfold ManagerState.set_fallback_order
  rw [buildFallbackIds_eq_filter]
  show Except.ok
        { st with
          active_id := mainPhaseActive st main,
          fallback_ids :=
            (List.filter (fbPred st.providers (mainPhaseActive st main)) cfg).filter
              (fun pid => (st.providers.lookup pid).isSome) } = _
  rw [filter_fbPred_self]

/-- C3: `apply_provider_config` activates the configured main id exactly
when it is registered and logged in; when no main id is configured it scans
the registry in registration order and activates the first logged-in
provider; when no switch fires, `active_id` is left as it was (so starting
from no active provider, none becomes active).  The resulting fallback list
is the configured list filtered to registered, logged-in ids distinct from
the resulting active id, and the registry is untouched. -/
theorem apply_config_selects_main (st : ManagerState) (main : Option String)
    (cfg : List String) (hwf : WfKeys st) :
    ∃ st', apply_provider_config st main cfg = Except.ok st' ∧
      st'.active_id = mainPhaseActive st main ∧
      st'.fallback_ids = cfg.filter (fbPred st.providers (mainPhaseActive st main)) ∧
      st'.providers = st.providers :=
  ⟨_, apply_provider_config_ok st main cfg hwf, rfl, rfl, rfl⟩

/-- Witness for C3: three registered providers of which only `netease` is
logged in, no main configured, configuration listing logged-out fallbacks —
`netease` becomes active and `fallback_ids` ends empty. -/
theorem apply_config_selects_main_witness :
    ∃ st', apply_provider_config stC3 none ["qqmusic", "other"] = Except.ok st' ∧
      st'.active_id = some "netease" ∧ st'.fallback_ids = [] := by
  obtain ⟨st', h1, h2, h3, _⟩ :=
    apply_config_selects_main stC3 none ["qqmusic", "other"] (by decide)
  exact ⟨st', h1, h2.trans (by decide), h3.trans (by decide)⟩

/-- C10: `apply_provider_config` never clears the active provider — when a
provider is active and neither the (truthy) configured main id resolves to a
logged-in provider, nor (when no main id is configured) any registered
provider is logged in, the previously active id stays active, even if its
own provider is now logged out. -/
theorem apply_config_never_clears_active (st : ManagerState) (main : Option String)
    (cfg : List String) (a : String) (hwf : WfKeys st)
    (ha : st.active_id = some a)
    (hmain : optStrTruthy main = true → loggedInAt st.providers (main.getD "") = false)
    (hscan : optStrTruthy main = false → ∀ e ∈ st.providers, e.2.logged_in = false) :
    ∃ st', apply_provider_config st main cfg = Except.ok st' ∧
      st'.active_id = some a := by
  refine ⟨_, apply_provider_config_ok st main cfg hwf, ?_⟩
  show mainPhaseActive st main = some a
  unfold mainPhaseActive
  cases htr : optStrTruthy main with
  | true =>
    simp only [if_true, ite_true]
    have hli := hmain htr
    unfold loggedInAt at hli
    cases hlk : st.providers.lookup (main.getD "") with
    | none => exact ha
    | some p =>
      rw [hlk] at hli
      have hli' : p.logged_in = false := hli
      simp only [hli', Bool.false_eq_true, if_false, ite_false]
      exact ha
  | false =>
    simp only [Bool.false_eq_true, if_false, ite_false]
    have hfind : st.providers.find? (fun e => e.2.logged_in) = none := by
      apply List.find?_eq_none.mpr
      intro e he
      simp [hscan htr e he]
    rw [hfind]
    exact ha

/-- Witness for C10: active (logged-out) provider `a` survives a
configuration naming the logged-out main candidate `q`. -/
theorem apply_config_never_clears_active_witness :
    ∃ st', apply_provider_config stC10 (some "q") ["q"] = Except.ok st' ∧
      st'.active_id = some "a" := by
  exact apply_config_never_clears_active stC10 (some "q") ["q"] "a" (by decide) rfl
    (by decide) (by decide)

/-- The reported-fallback loop of `get_provider_selection` is the `fbPred`
filter of the configured list. -/
theorem selectionFallbacks_eq_filter (st : ManagerState) (m : Option String)
    (cfg : List String) :
    selectionFallbacks st m cfg = cfg.filter (fbPred st.providers m) := by
  induction cfg with
  | nil => rfl
  | cons fb rest ih =>
    by_cases hsk : m = some fb
    · subst hsk
      simp [selectionFallbacks, List.filter_cons, fbPred, ih]
    · have hsk' : (m == some fb) = false := beq_eq_false_iff_ne.mpr hsk
      cases hlk : st.providers.lookup fb with
      | none =>
        simp [selectionFallbacks, ManagerState.get_provider, List.filter_cons, fbPred,
          loggedInAt, hsk', hlk, ih]
      | some p =>
        cases hp : p.logged_in <;>
          simp [selectionFallbacks, ManagerState.get_provider, List.filter_cons, fbPred,
            loggedInAt, hsk', hlk, hp, ih]

/-- C9: `get_provider_selection` is a pure query of the manager state (the
embedding is a function — the source method performs no state writes), whose
reported main provider is the logged-in active provider's id (else none) and
whose reported fallback list is exactly the configured ids filtered by the
same `fbPred` predicate as `apply_provider_config`'s fallback assembly:
distinct from the reported main id, registered, and currently logged in, in
configuration order. -/
theorem provider_selection_read_only_filtering (st : ManagerState) (cfg : List String) :
    get_provider_selection st cfg =
      { success := true, mainProvider := selectionMain st,
        fallbackProviders := cfg.filter (fbPred st.providers (selectionMain st)),
        error := none } := by
  unfold get_provider_selection
  rw [selectionFallbacks_eq_filter]

/-- A filtered list satisfies the filtering predicate everywhere. -/
theorem filter_all_self (p : String → Bool) (l : List String) :
    (l.filter p).all p = true := by
  rw [List.all_eq_true]
  intro x hx
  exact (List.mem_filter.mp hx).2

/-- Key-preserving value replacement does not change which keys `lookup`
finds. -/
theorem lookup_map_replace (l : List (String × MusicProvider)) (k : String)
    (v : MusicProvider) (i : String) :
    ((l.map (fun e => if e.1 == k then (e.1, v) else e)).lookup i).isSome =
      (l.lookup i).isSome := by
  induction l with
  | nil => rfl
  | cons e t ih =>
    obtain ⟨ek, ev⟩ := e
    simp only [List.map_cons]
    split <;> (cases hi : i == ek <;> simp only [List.lookup, hi] <;>
      first
      | rfl
      | exact ih)

/-- A key found in the front list is still found after appending. -/
theorem lookup_append_isSome (l l2 : List (String × MusicProvider)) (i : String)
    (h : (l.lookup i).isSome = true) : ((l ++ l2).lookup i).isSome = true := by
  induction l with
  | nil => simp [List.lookup] at h
  | cons e t ih =>
    obtain ⟨ek, ev⟩ := e
    cases hi : i == ek with
    | true =>
      simp [List.cons_append, List.lookup, hi]
    | false =>
      simp only [List.cons_append, List.lookup, hi] at h ⊢
      exact ih h

/-- `register` never removes a key from the registry. -/
theorem register_lookup_isSome (st : ManagerState) (p : MusicProvider) (i : String)
    (h : (st.providers.lookup i).isSome = true) :
    (((st.register p).providers).lookup i).isSome = true := by
  unfold ManagerState.register
  cases hr : (st.providers.lookup p.id).isSome with
  | true =>
    simp only [hr, if_true, ite_true]
    rw [lookup_map_replace]
    exact h
  | false =>
    simp only [hr, Bool.false_eq_true, if_false, ite_false]
    exact lookup_append_isSome st.providers [(p.id, p)] i h

/-- A successful `switch` changes only `active_id`. -/
theorem switch_ok_fields (st : ManagerState) (pid : String) (s : ManagerState)
    (h : st.switch pid = Except.ok s) :
    s.providers = st.providers ∧ s.fallback_ids = st.fallback_ids := by
  unfold ManagerState.switch at h
  cases hr : (st.providers.lookup pid).isSome with
  | true =>
    rw [hr] at h
    simp only [if_true, ite_true, Except.ok.injEq] at h
    rw [← h]
    exact ⟨rfl, rfl⟩
  | false =>
    rw [hr] at h
    simp at h

/-- The automatic-selection scan preserves the registry. -/
theorem autoSwitch_ok_providers (st : ManagerState)
    (l : List (String × MusicProvider)) (s : ManagerState)
    (h : autoSwitchFirstLoggedIn st l = Except.ok s) : s.providers = st.providers := by
  induction l with
  | nil =>
    unfold autoSwitchFirstLoggedIn at h
    simp only [Except.ok.injEq] at h
    rw [← h]
  | cons e t ih =>
    unfold autoSwitchFirstLoggedIn at h
    cases hl : e.2.logged_in with
    | true =>
      rw [hl] at h
      simp only [if_true, ite_true] at h
      exact (switch_ok_fields st e.2.id s h).1
    | false =>
      rw [hl] at h
      simp only [Bool.false_eq_true, if_false, ite_false] at h
      exact ih h

/-- The main-provider phase preserves the registry. -/
theorem applyMainPhase_ok_providers (st : ManagerState) (m : Option String)
    (s : ManagerState) (h : applyMainPhase st m = Except.ok s) :
    s.providers = st.providers := by
  unfold applyMainPhase ManagerState.get_provider at h
  cases htr : optStrTruthy m with
  | false =>
    rw [htr] at h
    simp only [Bool.false_eq_true, if_false, ite_false] at h
    exact autoSwitch_ok_providers st st.providers s h
  | true =>
    rw [htr] at h
    simp only [if_true, ite_true] at h
    cases hlk : st.providers.lookup (m.getD "") with
    | none =>
      rw [hlk] at h
      simp only [Except.ok.injEq] at h
      rw [← h]
    | some p =>
      rw [hlk] at h
      have h' : (if p.logged_in = true then st.switch (m.getD "") else Except.ok st) =
          Except.ok s := h
      cases hp : p.logged_in with
      | true =>
        rw [hp] at h'
        simp only [if_true, ite_true] at h'
        exact (switch_ok_fields st (m.getD "") s h').1
      | false =>
        rw [hp] at h'
        simp only [Bool.false_eq_true, if_false, ite_false, Except.ok.injEq] at h'
        rw [← h']

/-- Whatever `apply_provider_config` returns satisfies the
registered-fallbacks property. -/
theorem apply_ok_fallback_registered (st : ManagerState) (m : Option String)
    (cfg : List String) (s : ManagerState)
    (h : apply_provider_config st m cfg = Except.ok s) :
    s.fallback_ids.all (fun i => (s.providers.lookup i).isSome) = true := by
  unfold apply_provider_config at h
  cases hph : applyMainPhase st m with
  | error e =>
    rw [hph] at h
    simp [Bind.bind, Except.bind] at h
  | ok st1 =>
    rw [hph, exceptBindOk] at h
    simp only [Except.ok.injEq] at h
    rw [← h]
    exact filter_all_self _ _

/-- Every single manager operation preserves the registered-fallbacks
property. -/
theorem stepOp_preserves_fallback_registered (st : ManagerState) (op : MgrOp)
    (h : st.fallback_ids.all (fun i => (st.providers.lookup i).isSome) = true) :
    (stepOp st op).fallback_ids.all
      (fun i => ((stepOp st op).providers.lookup i).isSome) = true := by
  cases op with
  | reg p =>
    show (st.register p).fallback_ids.all
      (fun i => ((st.register p).providers.lookup i).isSome) = true
    have hfb : (st.register p).fallback_ids = st.fallback_ids := by
      unfold ManagerState.register
      split <;> rfl
    rw [hfb, List.all_eq_true]
    intro i hi
    rw [List.all_eq_true] at h
    exact register_lookup_isSome st p i (h i hi)
  | sw pid =>
    simp only [stepOp]
    cases hsw : st.switch pid with
    | error e => exact h
    | ok s =>
      obtain ⟨h1, h2⟩ := switch_ok_fields st pid s hsw
      rw [h1, h2]
      exact h
  | setFb ids =>
    exact filter_all_self _ _
  | applyCfg m cfg =>
    simp only [stepOp]
    cases happ : apply_provider_config st m cfg with
    | error e => exact h
    | ok s => exact apply_ok_fallback_registered st m cfg s happ

/-- Operation sequences preserve the registered-fallbacks property. -/
theorem runOps_preserves_fallback_registered (ops : List MgrOp) :
    ∀ st : ManagerState,
      st.fallback_ids.all (fun i => (st.providers.lookup i).isSome) = true →
      (runOps st ops).fallback_ids.all
        (fun i => ((runOps st ops).providers.lookup i).isSome) = true := by
  induction ops with
  | nil => intro st h; exact h
  | cons op rest ih =>
    intro st h
    exact ih (stepOp st op) (stepOp_preserves_fallback_registered st op h)

/-- C5 counterexample: the sequence register `a`, register `b`, switch to
`a`, `set_fallback_order ["a", "a"]` leaves `fallback_ids = ["a", "a"]` with
`active_id = some "a"` — the stored fallback list can both duplicate an id
and contain the active id, refuting those two parts of the claimed
invariant. -/
theorem fallback_invariant_counterexample :
    (runOps initState [.reg provA, .reg provB, .sw "a", .setFb ["a", "a"]]).fallback_ids
        = ["a", "a"] ∧
    (runOps initState [.reg provA, .reg provB, .sw "a", .setFb ["a", "a"]]).active_id
        = some "a" := by
  constructor <;> rfl

/-- C5 (amended): after every sequence of manager operations from a fresh
manager, every id in `fallback_ids` exists in the registry; the claimed
no-duplicate and not-equal-to-`active_id` parts do not hold in general. -/
theorem fallback_ids_always_registered (ops : List MgrOp) :
    ((runOps initState ops).fallback_ids.all
      (fun i => ((runOps initState ops).providers.lookup i).isSome)) = true :=
  runOps_preserves_fallback_registered ops initState rfl

/-- Replacing the provider stored under `pid` leaves lookups of other keys
unchanged. -/
theorem lookup_replace_ne (l : List (String × MusicProvider)) (pid : String)
    (p' : MusicProvider) (i : String) (hne : (i == pid) = false) :
    ((l.map (fun e => if e.1 == pid then (e.1, p') else e)).lookup i) = l.lookup i := by
  induction l with
  | nil => rfl
  | cons e t ih =>
    obtain ⟨ek, ev⟩ := e
    simp only [List.map_cons]
    split
    case isTrue hq =>
      have hiek : (i == ek) = false := by
        cases hcc : i == ek
        · rfl
        · have h1 : i = ek := by simpa using hcc
          have h2 : ek = pid := by simpa using hq
          rw [h1, h2] at hne
          simp at hne
      simp only [List.lookup, hiek]
      exact ih
    case isFalse hq =>
      cases hiek : i == ek with
      | true => simp only [List.lookup, hiek]
      | false =>
        simp only [List.lookup, hiek]
        exact ih

/-- Replacing the provider stored under a present key makes lookups of that
key return the replacement. -/
theorem lookup_replace_eq (l : List (String × MusicProvider)) (pid : String)
    (p' : MusicProvider) (h : (l.lookup pid).isSome = true) :
    ((l.map (fun e => if e.1 == pid then (e.1, p') else e)).lookup pid) = some p' := by
  induction l with
  | nil => simp [List.lookup] at h
  | cons e t ih =>
    obtain ⟨ek, ev⟩ := e
    simp only [List.map_cons]
    split
    case isTrue hq =>
      have h2 : ek = pid := by simpa using hq
      subst h2
      simp [List.lookup]
    case isFalse hq =>
      have h2 : (pid == ek) = false := by
        cases hc : pid == ek
        · rfl
        · have h3 : pid = ek := by simpa using hc
          subst h3
          simp at hq
      simp only [List.lookup, h2] at h ⊢
      exact ih h

/-- A provider without `SEARCH_SONG` never matches, whatever its query
functions are. -/
theorem matchSong_nocap_override (p : MusicProvider)
    (f : String → Nat → Nat → SearchResponse) (g : String → Bool → SongLyricResponse)
    (u : String → Option String → SongUrlResponse) (n s : String)
    (h : p.has_capability Capability.SEARCH_SONG = false) :
    matchSongInProvider (overrideQueries p f g u) n s = none := by
  have hov : (overrideQueries p f g u).has_capability Capability.SEARCH_SONG = false := h
  simp [matchSongInProvider, hov]

/-- A provider without `SEARCH_SONG` never matches. -/
theorem matchSong_nocap (p : MusicProvider) (n s : String)
    (h : p.has_capability Capability.SEARCH_SONG = false) :
    matchSongInProvider p n s = none := by
  simp [matchSongInProvider, h]

/-- The URL fallback walk does not depend on the query functions of a
registered provider lacking `SEARCH_SONG`. -/
theorem urlFallbackLoop_replace_eq (st : ManagerState) (pid : String)
    (p : MusicProvider)
    (f : String → Nat → Nat → SearchResponse) (g : String → Bool → SongLyricResponse)
    (u : String → Option String → SongUrlResponse)
    (hp : st.providers.lookup pid = some p)
    (hcap : p.has_capability Capability.SEARCH_SONG = false)
    (n s : String) (q : Option String) :
    ∀ ids, urlFallbackLoop (replaceProvider st pid (overrideQueries p f g u)) n s q ids =
      urlFallbackLoop st n s q ids := by
  intro ids
  have hfid : (replaceProvider st pid (overrideQueries p f g u)).active_id =
      st.active_id := rfl
  have hlf : ∀ j, (j == pid) = false →
      (replaceProvider st pid (overrideQueries p f g u)).providers.lookup j =
        st.providers.lookup j :=
    fun j hj => lookup_replace_ne st.providers pid _ j hj
  have hlp : (replaceProvider st pid (overrideQueries p f g u)).providers.lookup pid =
      some (overrideQueries p f g u) :=
    lookup_replace_eq st.providers pid _ (by rw [hp]; rfl)
  induction ids with
  | nil => rfl
  | cons fb rest ih =>
    simp only [urlFallbackLoop]
    rw [hfid]
    by_cases hsk : st.active_id = some fb
    · have hsk' : (st.active_id == some fb) = true := by simp [hsk]
      simp only [hsk', if_true, ite_true]
      exact ih
    · have hsk' : (st.active_id == some fb) = false := beq_eq_false_iff_ne.mpr hsk
      simp only [hsk', Bool.false_eq_true, if_false, ite_false]
      by_cases hfb : fb = pid
      · subst hfb
        rw [hlp, hp]
        simp only [matchSong_nocap_override p f g u n s hcap, matchSong_nocap p n s hcap]
        exact ih
      · have hfb' : (fb == pid) = false := beq_eq_false_iff_ne.mpr hfb
        rw [hlf fb hfb']
        cases hlk : st.providers.lookup fb with
        | none => exact ih
        | some fbp =>
          cases hms : matchSongInProvider fbp n s with
          | none =>
            simp only [hms]
            exact ih
          | some matched =>
            simp only [hms]
            cases hu : urlUsable (fbp.get_song_url (matched.mid.getD "") q) with
            | true => simp only [hu, if_true, ite_true]
            | false =>
              simp only [hu, Bool.false_eq_true, if_false, ite_false]
              exact ih

/-- The lyric fallback walk does not depend on the query functions of a
registered provider lacking `LYRIC_BASIC`. -/
theorem lyricFallbackLoop_replace_eq (st : ManagerState) (pid : String)
    (p : MusicProvider)
    (f : String → Nat → Nat → SearchResponse) (g : String → Bool → SongLyricResponse)
    (u : String → Option String → SongUrlResponse)
    (hp : st.providers.lookup pid = some p)
    (hcap : p.has_capability Capability.LYRIC_BASIC = false)
    (n s : String) (qrc : Bool) :
    ∀ ids, lyricFallbackLoop (replaceProvider st pid (overrideQueries p f g u)) n s qrc ids =
      lyricFallbackLoop st n s qrc ids := by
  intro ids
  have hfid : (replaceProvider st pid (overrideQueries p f g u)).active_id =
      st.active_id := rfl
  have hlf : ∀ j, (j == pid) = false →
      (replaceProvider st pid (overrideQueries p f g u)).providers.lookup j =
        st.providers.lookup j :=
    fun j hj => lookup_replace_ne st.providers pid _ j hj
  have hlp : (replaceProvider st pid (overrideQueries p f g u)).providers.lookup pid =
      some (overrideQueries p f g u) :=
    lookup_replace_eq st.providers pid _ (by rw [hp]; rfl)
  have hovcap : (overrideQueries p f g u).has_capability Capability.LYRIC_BASIC = false :=
    hcap
  induction ids with
  | nil => rfl
  | cons fb rest ih =>
    simp only [lyricFallbackLoop]
    rw [hfid]
    by_cases hsk : st.active_id = some fb
    · have hsk' : (st.active_id == some fb) = true := by simp [hsk]
      simp only [hsk', if_true, ite_true]
      exact ih
    · have hsk' : (st.active_id == some fb) = false := beq_eq_false_iff_ne.mpr hsk
      simp only [hsk', Bool.false_eq_true, if_false, ite_false]
      by_cases hfb : fb = pid
      · subst hfb
        rw [hlp, hp]
        simp only [hovcap, hcap, Bool.not_false, if_true, ite_true]
        exact ih
      · have hfb' : (fb == pid) = false := beq_eq_false_iff_ne.mpr hfb
        rw [hlf fb hfb']
        cases hlk : st.providers.lookup fb with
        | none => exact ih
        | some fbp =>
          cases hcl : fbp.has_capability Capability.LYRIC_BASIC with
          | false =>
            simp only [hcl, Bool.not_false, if_true, ite_true]
            exact ih
          | true =>
            simp only [hcl, Bool.not_true, Bool.false_eq_true, if_false, ite_false]
            cases hms : matchSongInProvider fbp n s with
            | none =>
              simp only [hms]
              exact ih
            | some matched =>
              simp only [hms]
              cases hu : lyricUsable (fbp.get_song_lyric (matched.mid.getD "") qrc) with
              | true => simp only [hu, if_true, ite_true]
              | false =>
                simp only [hu, Bool.false_eq_true, if_false, ite_false]
                exact ih

/-- C7: a fallback provider lacking the gating capability is never queried —
the outcome of `get_song_lyric_with_fallback` is unchanged when the
`search_songs`/`get_song_lyric`/`get_song_url` functions of a registered,
non-active provider lacking `LYRIC_BASIC` are replaced arbitrarily, and the
outcome of `get_song_url_with_fallback` is likewise unchanged for one
lacking `SEARCH_SONG` (whose match step is skipped before any search). -/
theorem capability_gated_fallback_never_queried
    (st : ManagerState) (pid : String) (p : MusicProvider)
    (f : String → Nat → Nat → SearchResponse) (g : String → Bool → SongLyricResponse)
    (u : String → Option String → SongUrlResponse)
    (mid n s : String) (q : Option String) (qrc : Bool)
    (hp : st.providers.lookup pid = some p)
    (hna : st.active_id ≠ some pid) :
    (p.has_capability Capability.LYRIC_BASIC = false →
      get_song_lyric_with_fallback (replaceProvider st pid (overrideQueries p f g u))
          mid n s qrc =
        get_song_lyric_with_fallback st mid n s qrc) ∧
    (p.has_capability Capability.SEARCH_SONG = false →
      get_song_url_with_fallback (replaceProvider st pid (overrideQueries p f g u))
          mid n s q =
        get_song_url_with_fallback st mid n s q) := by
  have hact : (replaceProvider st pid (overrideQueries p f g u)).active = st.active := by
    unfold ManagerState.active
    rw [show (replaceProvider st pid (overrideQueries p f g u)).active_id = st.active_id
      from rfl]
    cases hai : st.active_id with
    | none => rfl
    | some aid =>
      refine lookup_replace_ne st.providers pid _ aid ?_
      refine beq_eq_false_iff_ne.mpr ?_
      intro hh
      exact hna (by rw [hai, hh])
  have hfb : (replaceProvider st pid (overrideQueries p f g u)).fallback_ids =
      st.fallback_ids := rfl
  have hfid : (replaceProvider st pid (overrideQueries p f g u)).active_id =
      st.active_id := rfl
  constructor
  · intro hly
    unfold get_song_lyric_with_fallback
    rw [hact, hfb, lyricFallbackLoop_replace_eq st pid p f g u hp hly n s qrc]
  · intro hsr
    unfold get_song_url_with_fallback
    rw [hact, hfb, hfid, urlFallbackLoop_replace_eq st pid p f g u hp hsr n s q]

/-- Witness for C7: in the gating fixture, arbitrarily replacing the query
functions of `x` (which lacks both gate capabilities but whose functions
would return usable answers) changes neither routing outcome. -/
theorem capability_gated_fallback_never_queried_witness :
    (get_song_lyric_with_fallback
        (replaceProvider stC7 "x" (overrideQueries provX baseSearch baseLyric baseUrl))
        "1" "N" "S" true =
      get_song_lyric_with_fallback stC7 "1" "N" "S" true) ∧
    (get_song_url_with_fallback
        (replaceProvider stC7 "x" (overrideQueries provX baseSearch baseLyric baseUrl))
        "1" "N" "S" none =
      get_song_url_with_fallback stC7 "1" "N" "S" none) := by
  have h := capability_gated_fallback_never_queried stC7 "x" provX
    baseSearch baseLyric baseUrl "1" "N" "S" none true rfl (by decide)
  exact ⟨h.1 (by decide), h.2 (by decide)⟩
